import Mathlib

/-!
# Zombie-detector core: shallow embedding and verification

This file embeds the core of the `zombie-detector` repository in Lean 4 and
proves (or refutes) the specification's claims about it.

Embedded components:

* `classifier.py` — the criteria-combination codec (`_code_for_active`), the
  alias table (`ALIAS_BY_CODE`), active-index extraction (`_active_indices`),
  descriptions, `classify_host`, and the decode map
  (`get_criteria_combinations`).
* `processor.py` — the per-host enrichment step of `process_host_data`
  (classification + runtime policy lookup), zombie filtering, tracking
  dispatch and `_tracking_info` attachment.  The Kafka publishing step is
  omitted: its failures are caught and logged and it never affects the
  returned records or the tracker state.
* `zombie_tracker.py` — `ZombieTracker` state (current snapshot, history log,
  killed registry) with `save_current_zombies`, `_update_zombie_history`,
  `_track_killed_zombies`, `is_zombie_killed` and `cleanup_old_data`.

Modelling conventions:

* Python dicts used as lookup tables become association lists or functions
  into `Option`; a `dict[key]` access that could raise `KeyError` is embedded
  as an `Option`-returning lookup (`none` = the exception).
* Python values subjected to `int(...)` become `PyVal`: either an
  integer-coercible value or one whose coercion raises.
* Timestamps (ISO strings produced by `datetime.now().isoformat()`, parsed
  back with `fromisoformat`; their string order is their chronological order)
  are embedded as integers counting seconds, with `timedelta(days=d)` =
  `d * 86400` seconds; "now" is passed explicitly.
* File-backed state becomes an explicit `TrackerState` value threaded through
  the operations.
-/

namespace ZombieDetector

/-- The five criterion field names, in their fixed, load-bearing order
(indices 0..4). -/
def CRITERIA_KEYS : List String :=
  [ "Recent_CPU_decrease_criterion"
  , "Recent_net_traffic_decrease_criterion"
  , "Sustained_Low_CPU_criterion"
  , "Excessively_constant_RAM_criterion"
  , "Daily_CPU_profile_lost_criterion" ]

/-- Spanish description fragments, one per criterion index. -/
def CRITERIA_DESCRIPTIONS : List String :=
  [ "Detectada una bajada repentina en el uso de CPU"
  , "Detectada una caída brusca en el tráfico de red reciente"
  , "El uso de CPU se mantiene demasiado bajo durante un tiempo prolongado"
  , "El uso de RAM permanece anormalmente constante, sin variaciones"
  , "El patrón diario esperado de uso de CPU no se está cumpliendo" ]

/-- The static code → alias table (`ALIAS_BY_CODE`), in source order. -/
def ALIAS_BY_CODE : List (String × String) :=
  [ ("5", "Coloso")
  , ("4A", "Nemesis")
  , ("4B", "Clicker")
  , ("4C", "Revenant")
  , ("4D", "Ghoul")
  , ("4E", "Gael")
  , ("3A", "Solomon")
  , ("3B", "Bud")
  , ("3C", "Tarman")
  , ("3D", "Ben")
  , ("3E", "Fido")
  , ("3F", "Bloater")
  , ("3G", "Shambler")
  , ("3H", "Stalker")
  , ("3I", "Zeus")
  , ("3J", "Wights")
  , ("2A", "Mummy")
  , ("2B", "Wraith")
  , ("2C", "Vampire")
  , ("2D", "Banshee")
  , ("2E", "Phantom")
  , ("2F", "Specter")
  , ("2G", "Shade")
  , ("2H", "Poltergeist")
  , ("2I", "Spirit")
  , ("2J", "Apparition")
  , ("1A", "Zombie")
  , ("1B", "Walker")
  , ("1C", "Crawler")
  , ("1D", "Lurker")
  , ("1E", "Sleeper")
  , ("0", "No Zombie Detected") ]

/-- Letter `chr(ord('A') + i)` for the offsets the tables use (0..9). -/
def letter : Nat → String
  | 0 => "A" | 1 => "B" | 2 => "C" | 3 => "D" | 4 => "E"
  | 5 => "F" | 6 => "G" | 7 => "H" | 8 => "I" | 9 => "J"
  | _ => ""

/-- Table `FOUR_OF_FIVE_MISSING_TO_CODE`: the single *missing* index → code. -/
def FOUR_OF_FIVE_MISSING_TO_CODE : List (Nat × String) :=
  [ (0, "4A"), (1, "4B"), (2, "4C"), (3, "4D"), (4, "4E") ]

/-- Table `THREE_COMBOS`: every ascending triple of indices, in source order. -/
def THREE_COMBOS : List (List Nat) :=
  [ [0, 1, 2], [0, 1, 3], [0, 1, 4], [0, 2, 3], [0, 2, 4]
  , [0, 3, 4], [1, 2, 3], [1, 2, 4], [1, 3, 4], [2, 3, 4] ]

/-- Table `TWO_COMBOS`: every ascending pair of indices, in source order. -/
def TWO_COMBOS : List (List Nat) :=
  [ [0, 1], [0, 2], [0, 3], [0, 4], [1, 2]
  , [1, 3], [1, 4], [2, 3], [2, 4], [3, 4] ]

/-- Table `THREE_SET_TO_CODE`: each triple (as a set key) → `"3" + chr(ord('A')+i)`. -/
def THREE_SET_TO_CODE : List (List Nat × String) :=
  THREE_COMBOS.enum.map (fun p => (p.2, "3" ++ letter p.1))

/-- Table `TWO_SET_TO_CODE`: each pair (as a set key) → `"2" + chr(ord('A')+i)`. -/
def TWO_SET_TO_CODE : List (List Nat × String) :=
  TWO_COMBOS.enum.map (fun p => (p.2, "2" ++ letter p.1))

/-- Table `ONE_INDEX_TO_CODE`: single active index → code. -/
def ONE_INDEX_TO_CODE : List (Nat × String) :=
  [ (0, "1A"), (1, "1B"), (2, "1C"), (3, "1D"), (4, "1E") ]

/-- Python `frozenset` key equality: two index lists denote the same set. -/
def sameSet (a b : List Nat) : Bool :=
  a.all (fun x => b.contains x) && b.all (fun x => a.contains x)

/-- Function `_code_for_active`: map the list of active indices to a classification
code.  Dict lookups that would raise `KeyError` return `none`.  The
`set.pop()` on the singleton difference for the 4-of-5 case is embedded as
taking the head of the ascending list of missing indices. -/
def code_for_active (active_idxs : List Nat) : Option String :=
  let n := active_idxs.length
  if n = 5 then some "5"
  else if n = 4 then
    let missing := ((List.range 5).filter (fun i => !active_idxs.contains i)).headD 0
    (FOUR_OF_FIVE_MISSING_TO_CODE.find? (fun p => p.1 == missing)).map (·.2)
  else if n = 3 then
    (THREE_SET_TO_CODE.find? (fun p => sameSet p.1 active_idxs)).map (·.2)
  else if n = 2 then
    (TWO_SET_TO_CODE.find? (fun p => sameSet p.1 active_idxs)).map (·.2)
  else if n = 1 then
    (ONE_INDEX_TO_CODE.find? (fun p => p.1 == active_idxs.headD 0)).map (·.2)
  else some "0"

/-- Function `_alias_for_code`: alias lookup with fallback `alias = code`. -/
def alias_for_code (code : String) : String :=
  ((ALIAS_BY_CODE.find? (fun p => p.1 == code)).map (·.2)).getD code

/-- Function `_description_for_active`: join the Spanish fragments of the active
criteria in index order; empty active set yields the fixed sentence. -/
def description_for_active (active_idxs : List Nat) : String :=
  let parts := active_idxs.map (fun i => CRITERIA_DESCRIPTIONS.getD i "")
  if parts.isEmpty then "Sin criterios de zombie activos"
  else String.intercalate ", " parts

/-- A Python value as seen by `int(...)`: either it coerces to an integer or
the coercion raises (non-numeric string, `None`, ...). -/
inductive PyVal where
  | intLike (n : Int)
  | nonNumeric
deriving DecidableEq

/-- Coercion `int(v)`, fallible. -/
def PyVal.int? : PyVal → Option Int
  | .intLike n => some n
  | .nonNumeric => none

/-- A host dictionary, seen through the keys the classifier reads: a partial
map from field name to value (`none` = key absent). -/
def HostFields : Type := String → Option PyVal

/-- Function `_active_indices`: indices whose field, defaulted to `0` when the key is
missing, coerces to exactly `1`; coercion failures are swallowed.  The
enumeration of the five `CRITERIA_KEYS` is embedded as a filter over
`range 5`. -/
def active_indices (host : HostFields) : List Nat :=
  (List.range 5).filter
    (fun i => ((host (CRITERIA_KEYS.getD i "")).getD (.intLike 0)).int? == some 1)

/-- Function `classify_host`: `(code, alias, description)` for one host. -/
def classify_host (host : HostFields) : Option (String × String × String) :=
  let active := active_indices host
  (code_for_active active).map
    (fun code => (code, alias_for_code code, description_for_active active))

/-- Insert into an ascending list (helper for `pySorted`). -/
def insertAsc (x : Nat) : List Nat → List Nat
  | [] => [x]
  | y :: ys => if x ≤ y then x :: y :: ys else y :: insertAsc x ys

/-- Python's `sorted(...)` on index lists, as a structurally recursive
insertion sort (kernel-reducible). -/
def pySorted (l : List Nat) : List Nat := l.foldr insertAsc []

/-- Function `get_criteria_combinations`: the decode map from code to the ordered list
of criterion field names.  Built exactly as the source builds the dict:
explicit single/double entries, then triples from `THREE_SET_TO_CODE`, quads
from `FOUR_OF_FIVE_MISSING_TO_CODE`, then `"5"` and `"0"`. -/
def get_criteria_combinations : List (String × List String) :=
  ([ ("1A", ["Recent_CPU_decrease_criterion"])
   , ("1B", ["Recent_net_traffic_decrease_criterion"])
   , ("1C", ["Sustained_Low_CPU_criterion"])
   , ("1D", ["Excessively_constant_RAM_criterion"])
   , ("1E", ["Daily_CPU_profile_lost_criterion"])
   , ("2A", ["Recent_CPU_decrease_criterion", "Recent_net_traffic_decrease_criterion"])
   , ("2B", ["Recent_CPU_decrease_criterion", "Sustained_Low_CPU_criterion"])
   , ("2C", ["Recent_CPU_decrease_criterion", "Excessively_constant_RAM_criterion"])
   , ("2D", ["Recent_CPU_decrease_criterion", "Daily_CPU_profile_lost_criterion"])
   , ("2E", ["Recent_net_traffic_decrease_criterion", "Sustained_Low_CPU_criterion"])
   , ("2F", ["Recent_net_traffic_decrease_criterion", "Excessively_constant_RAM_criterion"])
   , ("2G", ["Recent_net_traffic_decrease_criterion", "Daily_CPU_profile_lost_criterion"])
   , ("2H", ["Sustained_Low_CPU_criterion", "Excessively_constant_RAM_criterion"])
   , ("2I", ["Sustained_Low_CPU_criterion", "Daily_CPU_profile_lost_criterion"])
   , ("2J", ["Excessively_constant_RAM_criterion", "Daily_CPU_profile_lost_criterion"]) ]
   : List (String × List String))
  ++ THREE_SET_TO_CODE.map
       (fun p => (p.2, (pySorted p.1).map (fun i => CRITERIA_KEYS.getD i "")))
  ++ FOUR_OF_FIVE_MISSING_TO_CODE.map
       (fun p => (p.2, ((List.range 5).filter (fun i => i ≠ p.1)).map
                          (fun i => CRITERIA_KEYS.getD i "")))
  ++ [ ("5", CRITERIA_KEYS), ("0", ([] : List String)) ]

/-- Dict lookup into the decode map. -/
def combination_for (code : String) : Option (List String) :=
  (get_criteria_combinations.find? (fun p => p.1 == code)).map (·.2)

/-- The specification's canonical code assignment, written from the spec's
words (for comparison with the source's `code_for_active`): `"0"` for the
empty set, `"5"` for the full set, `"1"`+letter by the single index,
`"4"`+letter by the single missing index, and for sizes 2 and 3 the letter
given by the lexicographic enumeration of ascending index tuples
({0,1}=A .. {3,4}=J and (0,1,2)=A .. (2,3,4)=J). -/
def specCanonicalCode (s : List Nat) : Option String :=
  let lexTwo : List (List Nat) :=
    [[0, 1], [0, 2], [0, 3], [0, 4], [1, 2], [1, 3], [1, 4], [2, 3], [2, 4], [3, 4]]
  let lexThree : List (List Nat) :=
    [ [0, 1, 2], [0, 1, 3], [0, 1, 4], [0, 2, 3], [0, 2, 4]
    , [0, 3, 4], [1, 2, 3], [1, 2, 4], [1, 3, 4], [2, 3, 4] ]
  match s.length with
  | 0 => some "0"
  | 5 => some "5"
  | 1 => some ("1" ++ letter (s.headD 0))
  | 4 => some ("4" ++ letter (((List.range 5).filter (fun i => !s.contains i)).headD 0))
  | 2 => (lexTwo.indexOf? s).map (fun i => "2" ++ letter i)
  | 3 => (lexThree.indexOf? s).map (fun i => "3" ++ letter i)
  | _ => none

/-! ## Processor and tracker data model -/

/-- Aggregate counts returned in a transition report (`stats`). -/
structure Stats where
  total_zombies : Nat
  new_zombies : Nat
  persisting_zombies : Nat
  killed_zombies : Nat
deriving DecidableEq

/-- The transition report returned by `save_current_zombies`.  The Python
code materialises the three sets as `list(...)` of Python sets with no
ordering guarantee; they are embedded as finite sets of identifiers. -/
structure Report where
  new_zombies : Finset String
  persisting_zombies : Finset String
  killed_zombies : Finset String
  stats : Stats
deriving DecidableEq

/-- An enriched host record, seen through the keys the core reads/writes.
`tracking_info` models the optional `"_tracking_info"` key (absent =
`none`). -/
structure Enriched where
  dynatrace_host_id : String
  hostname : String
  criterion_type : String
  criterion_alias : String
  criterion_description : String
  criterion_state : Int
  is_zombie : Bool
  tracking_info : Option Report
deriving DecidableEq

/-- One entry of the history log. -/
structure HistEntry where
  timestamp : Int
  zombie_count : Nat
  zombies : List Enriched
deriving DecidableEq

/-- One entry of the killed registry. -/
structure KilledEntry where
  dynatrace_host_id : String
  hostname : String
  criterion_type : String
  criterion_alias : String
  killed_at : Int
  last_detection : Enriched
deriving DecidableEq

/-- The persisted state of a `ZombieTracker`: the `zombies` list of the
current-snapshot file, the `history` list of the history file, and the
`killed_zombies` list of the killed file. -/
structure TrackerState where
  current : List Enriched
  history : List HistEntry
  killed : List KilledEntry
deriving DecidableEq

/-- Method `ZombieTracker._update_zombie_history`: append this run's entry, then
keep only the last 1000 entries (`history[-1000:]`) when over the cap. -/
def update_zombie_history (history : List HistEntry) (zombies : List Enriched)
    (timestamp : Int) : List HistEntry :=
  let h := history ++
    [{ timestamp := timestamp, zombie_count := zombies.length, zombies := zombies }]
  if h.length > 1000 then h.drop (h.length - 1000) else h

/-- Method `ZombieTracker._track_killed_zombies`: for each previous-snapshot record
whose id is in the killed set, append a killed entry carrying the record's
id, hostname, last code/alias, the kill timestamp, and the record itself. -/
def track_killed_zombies (killed : List KilledEntry) (killed_ids : Finset String)
    (previous_zombies : List Enriched) (timestamp : Int) : List KilledEntry :=
  killed ++
    (previous_zombies.filter (fun z => decide (z.dynatrace_host_id ∈ killed_ids))).map
      (fun z =>
        { dynatrace_host_id := z.dynatrace_host_id
        , hostname := z.hostname
        , criterion_type := z.criterion_type
        , criterion_alias := z.criterion_alias
        , killed_at := timestamp
        , last_detection := z })

/-- Method `ZombieTracker.save_current_zombies`: diff the current zombie ids against
the previous snapshot's ids, overwrite the current snapshot, update the
history log, track killed zombies (only when the killed set is non-empty, as
in the source's truthiness guard), and return the transition report. -/
def save_current_zombies (st : TrackerState) (zombies : List Enriched)
    (now : Int) : TrackerState × Report :=
  let previous_zombies := st.current
  let previous_ids : Finset String :=
    (previous_zombies.map (·.dynatrace_host_id)).toFinset
  let current_ids : Finset String := (zombies.map (·.dynatrace_host_id)).toFinset
  let new_ids := current_ids \ previous_ids
  let persisting_ids := current_ids ∩ previous_ids
  let killed_ids := previous_ids \ current_ids
  let stats : Stats :=
    { total_zombies := zombies.length
    , new_zombies := new_ids.card
    , persisting_zombies := persisting_ids.card
    , killed_zombies := killed_ids.card }
  let history' := update_zombie_history st.history zombies now
  let killed' :=
    if killed_ids = ∅ then st.killed
    else track_killed_zombies st.killed killed_ids previous_zombies now
  ( { current := zombies, history := history', killed := killed' }
  , { new_zombies := new_ids, persisting_zombies := persisting_ids
    , killed_zombies := killed_ids, stats := stats } )

/-- Method `ZombieTracker.is_zombie_killed`: first killed-registry entry matching
the id, or `none`. -/
def is_zombie_killed (st : TrackerState) (zombie_id : String) : Option KilledEntry :=
  st.killed.find? (fun e => e.dynatrace_host_id == zombie_id)

/-- Cleanup's view of the two persisted files it sweeps: `none` models a
missing or corrupt (unreadable) file, whose `json.load` raises
`FileNotFoundError`/`JSONDecodeError`. -/
structure PersistedStores where
  history_file : Option (List HistEntry)
  killed_file : Option (List KilledEntry)
deriving DecidableEq

/-- Method `ZombieTracker.cleanup_old_data`: read the history file — a
missing or corrupt file hits the `except ... return` and aborts the whole
sweep, leaving the killed registry untouched — otherwise keep only history
entries with `entry_time >= cutoff_time` and write them back; then read the
killed file — missing/corrupt returns with it unchanged — otherwise keep
only killed entries with `killed_time >= cutoff_time`. -/
def cleanup_old_data (st : PersistedStores) (now : Int) (days_to_keep : Int) :
    PersistedStores :=
  let cutoff := now - days_to_keep * 86400
  match st.history_file with
  | none => st
  | some history =>
    let history_kept := history.filter (fun e => decide (cutoff ≤ e.timestamp))
    match st.killed_file with
    | none => { history_file := some history_kept, killed_file := none }
    | some killed =>
      { history_file := some history_kept
      , killed_file :=
          some (killed.filter (fun e => decide (cutoff ≤ e.killed_at))) }

/-! ## Processor -/

/-- A host record as the processor reads it: stable identifier, hostname, and
the dictionary of fields the classifier inspects. -/
structure Host where
  dynatrace_host_id : String
  hostname : String
  fields : HostFields

/-- The per-host enrichment step of `process_host_data`: classify, look up
the runtime policy for the code (default `1` when absent), and either
override to the "no zombie" result (policy value `0`) or keep the raw
classification with `is_zombie = (code != "0")`. -/
def enrich_host (states_config : String → Option Int) (host : Host) :
    Option Enriched :=
  (classify_host host.fields).map (fun c =>
    let criterion_state := (states_config c.1).getD 1
    if criterion_state = 0 then
      { dynatrace_host_id := host.dynatrace_host_id
      , hostname := host.hostname
      , criterion_type := "0"
      , criterion_alias := "No Zombie Detected"
      , criterion_description := "Sin criterios de zombie activos"
      , criterion_state := criterion_state
      , is_zombie := false
      , tracking_info := none }
    else
      { dynatrace_host_id := host.dynatrace_host_id
      , hostname := host.hostname
      , criterion_type := c.1
      , criterion_alias := c.2.1
      , criterion_description := c.2.2
      , criterion_state := criterion_state
      , is_zombie := c.1 != "0"
      , tracking_info := none })

/-- Function `process_host_data` (tracking path; the Kafka publish step is omitted
because its exceptions are caught and it never changes the returned records
or the tracker state): enrich every host, and when tracking is enabled and
the enriched zombie subset is non-empty, record a snapshot and attach the
transition report to the first returned record as `"_tracking_info"`. -/
def process_host_data (host_data : List Host) (states_config : String → Option Int)
    (st : TrackerState) (now : Int) (enable_tracking : Bool) :
    Option (List Enriched × TrackerState) := do
  let enriched_hosts ← host_data.mapM (enrich_host states_config)
  let (tracking_info, st') :=
    if enable_tracking then
      let zombies_only := enriched_hosts.filter (·.is_zombie)
      if zombies_only.isEmpty then (none, st)
      else
        let r := save_current_zombies st zombies_only now
        (some r.2, r.1)
    else (none, st)
  let result :=
    match tracking_info with
    | some info =>
      match enriched_hosts with
      | [] => enriched_hosts
      | h :: t => { h with tracking_info := some info } :: t
    | none => enriched_hosts
  return (result, st')

/-! ## Theorems -/

/-- C1: the codec is a bijection between the 32 subsets of `{0..4}` (the
sublists of `[0,1,2,3,4]`, i.e. ascending index lists) and the 32 codes, with
exactly the canonical letter assignments the spec lists (`specCanonicalCode`);
encoding is injective, and decoding the code of any subset returns exactly the
criterion field names at the subset's indices in ascending order. -/
theorem codec_bijection :
    (∀ l ∈ (List.range 5).sublists, code_for_active l = specCanonicalCode l) ∧
    (∀ l ∈ (List.range 5).sublists,
        (code_for_active l).bind combination_for
          = some (l.map (fun i => CRITERIA_KEYS.getD i ""))) ∧
    ((List.range 5).sublists.map code_for_active).Pairwise (· ≠ ·) := by
  decide

/-- Witness for C1 at the concrete subset `{0,1}`. -/
theorem codec_bijection_witness :
    code_for_active [0, 1] = specCanonicalCode [0, 1] ∧
    (code_for_active [0, 1]).bind combination_for
      = some ["Recent_CPU_decrease_criterion", "Recent_net_traffic_decrease_criterion"] :=
  ⟨codec_bijection.1 [0, 1] (by decide), codec_bijection.2.1 [0, 1] (by decide)⟩

/-- C9: the static alias table has 32 entries with pairwise-distinct codes,
pairwise-distinct non-empty aliases, no non-`"0"` code aliases to itself
through `alias_for_code`, and every code the codec can produce has an entry
in the table. -/
theorem alias_table_wellformed :
    ALIAS_BY_CODE.length = 32 ∧
    (ALIAS_BY_CODE.map (·.1)).Pairwise (· ≠ ·) ∧
    (ALIAS_BY_CODE.map (·.2)).Pairwise (· ≠ ·) ∧
    (∀ p ∈ ALIAS_BY_CODE, p.2 ≠ "") ∧
    (∀ p ∈ ALIAS_BY_CODE, p.1 ≠ "0" → alias_for_code p.1 ≠ p.1) ∧
    (∀ l ∈ (List.range 5).sublists,
        ((code_for_active l).bind
            (fun c => ALIAS_BY_CODE.find? (fun p => p.1 == c))).isSome = true) := by
  decide

/-- Witness for C9 at the concrete table entry for `"2A"`. -/
theorem alias_table_wellformed_witness :
    ("2A", "Mummy").2 ≠ "" ∧ alias_for_code "2A" ≠ "2A" :=
  ⟨alias_table_wellformed.2.2.2.1 ("2A", "Mummy") (by decide),
   alias_table_wellformed.2.2.2.2.1 ("2A", "Mummy") (by decide) (by decide)⟩

/-- C2: `save_current_zombies` returns `new = C \ P`, `persisting = C ∩ P`,
`killed = P \ C` on the identifier sets; the three are pairwise disjoint,
`persisting ∪ killed = P`, `new ∪ persisting = C`, and the stats report each
category's cardinality plus the total number of current zombie records. -/
theorem transition_partition (st : TrackerState) (zombies : List Enriched)
    (now : Int) :
    let P := (st.current.map (·.dynatrace_host_id)).toFinset
    let C := (zombies.map (·.dynatrace_host_id)).toFinset
    let r := (save_current_zombies st zombies now).2
    r.new_zombies = C \ P ∧
    r.persisting_zombies = C ∩ P ∧
    r.killed_zombies = P \ C ∧
    Disjoint r.new_zombies r.persisting_zombies ∧
    Disjoint r.new_zombies r.killed_zombies ∧
    Disjoint r.persisting_zombies r.killed_zombies ∧
    r.persisting_zombies ∪ r.killed_zombies = P ∧
    r.new_zombies ∪ r.persisting_zombies = C ∧
    r.stats.new_zombies = r.new_zombies.card ∧
    r.stats.persisting_zombies = r.persisting_zombies.card ∧
    r.stats.killed_zombies = r.killed_zombies.card ∧
    r.stats.total_zombies = zombies.length := by
  intro P C r
  refine ⟨rfl, rfl, rfl, ?_, ?_, ?_, ?_, ?_, rfl, rfl, rfl, rfl⟩
  · show Disjoint (C \ P) (C ∩ P)
    rw [Finset.disjoint_left]
    intro a ha hb
    simp only [Finset.mem_sdiff, Finset.mem_inter] at ha hb
    exact ha.2 hb.2
  · show Disjoint (C \ P) (P \ C)
    rw [Finset.disjoint_left]
    intro a ha hb
    simp only [Finset.mem_sdiff] at ha hb
    exact hb.2 ha.1
  · show Disjoint (C ∩ P) (P \ C)
    rw [Finset.disjoint_left]
    intro a ha hb
    simp only [Finset.mem_sdiff, Finset.mem_inter] at ha hb
    exact hb.2 ha.1
  · show (C ∩ P) ∪ (P \ C) = P
    ext a
    simp only [Finset.mem_union, Finset.mem_inter, Finset.mem_sdiff]
    tauto
  · show (C \ P) ∪ (C ∩ P) = C
    ext a
    simp only [Finset.mem_union, Finset.mem_inter, Finset.mem_sdiff]
    tauto

/-- C5 counterexample: with the history file missing or corrupt, cleanup
hits the early return and never sweeps the killed registry, so a killed
entry of age greater than `d = 30` days (killed at time 0, with now =
2600000 and cutoff `now - 30` days `= 8000 > 0`) is retained. -/
theorem retention_cleanup_counterexample :
    ((cleanup_old_data
        { history_file := none
        , killed_file := some
            [{ dynatrace_host_id := "HOST-1", hostname := "host1"
             , criterion_type := "1C", criterion_alias := "Crawler"
             , killed_at := 0
             , last_detection :=
                 { dynatrace_host_id := "HOST-1", hostname := "host1"
                 , criterion_type := "1C", criterion_alias := "Crawler"
                 , criterion_description := "d", criterion_state := 1
                 , is_zombie := true, tracking_info := none } }] }
        2600000 30).killed_file.getD []).map (·.killed_at) = [0] ∧
    (0 : Int) < 2600000 - 30 * 86400 :=
  ⟨rfl, by decide⟩

/-- C5 (amended): provided both the history log and the killed registry are
readable, after `cleanup_old_data` with cutoff `now - d` days an entry is
retained iff it was there before and its timestamp is not strictly older
than the cutoff (age at most `d` days); an unreadable history store instead
aborts the sweep before touching anything. -/
theorem retention_cleanup_readable (history : List HistEntry)
    (killed : List KilledEntry) (now d : Int) :
    ∃ h k,
      cleanup_old_data
          { history_file := some history, killed_file := some killed } now d
        = { history_file := some h, killed_file := some k } ∧
      (∀ e, e ∈ h ↔ e ∈ history ∧ now - d * 86400 ≤ e.timestamp) ∧
      (∀ e, e ∈ k ↔ e ∈ killed ∧ now - d * 86400 ≤ e.killed_at) := by
  refine ⟨history.filter (fun e => decide (now - d * 86400 ≤ e.timestamp)),
          killed.filter (fun e => decide (now - d * 86400 ≤ e.killed_at)),
          rfl, ?_, ?_⟩ <;> intro e <;> simp [List.mem_filter]

/-- C8: after every snapshot recording the history log has at most 1000
entries, and it is exactly the most recent 1000 entries of the appended log
(FIFO eviction of the oldest), the just-appended entry included. -/
theorem history_cap (st : TrackerState) (zombies : List Enriched) (now : Int) :
    ((save_current_zombies st zombies now).1.history).length ≤ 1000 ∧
    (save_current_zombies st zombies now).1.history =
      (st.history ++
        [({ timestamp := now, zombie_count := zombies.length,
            zombies := zombies } : HistEntry)]).drop
        ((st.history ++
          [({ timestamp := now, zombie_count := zombies.length,
              zombies := zombies } : HistEntry)]).length - 1000) := by
  rw [show (save_current_zombies st zombies now).1.history
        = update_zombie_history st.history zombies now from rfl]
  unfold update_zombie_history
  simp only []
  by_cases h :
      (st.history ++
        [({ timestamp := now, zombie_count := zombies.length,
            zombies := zombies } : HistEntry)]).length > 1000
  · rw [if_pos h]
    refine ⟨?_, rfl⟩
    rw [List.length_drop]
    omega
  · rw [if_neg h]
    refine ⟨by omega, ?_⟩
    rw [show (st.history ++
          [({ timestamp := now, zombie_count := zombies.length,
              zombies := zombies } : HistEntry)]).length - 1000 = 0 by omega]
    rw [List.drop_zero]

/-- Helper: on every ascending subset of `{0..4}` the codec yields a code. -/
theorem code_for_active_on_subsets :
    ∀ l ∈ (List.range 5).sublists, (code_for_active l).isSome = true := by
  decide

/-- C7: `classify_host` is total for every host dictionary — it always
returns a `(code, alias, description)` triple — and an index is active iff
its field (defaulted to `0` when missing) coerces to exactly the integer 1;
missing fields and coercion failures count as inactive. -/
theorem classify_host_total (host : HostFields) :
    (classify_host host).isSome = true ∧
    ∀ i, i ∈ active_indices host ↔
      i < 5 ∧ ((host (CRITERIA_KEYS.getD i "")).getD (.intLike 0)).int? = some 1 := by
  constructor
  · have hsub : List.Sublist (active_indices host) (List.range 5) :=
      List.filter_sublist _
    have hmem : active_indices host ∈ (List.range 5).sublists :=
      List.mem_sublists.2 hsub
    have h := code_for_active_on_subsets _ hmem
    obtain ⟨c, hc⟩ := Option.isSome_iff_exists.mp h
    show ((code_for_active (active_indices host)).map _).isSome = true
    rw [hc]
    rfl
  · intro i
    simp [active_indices, List.mem_filter, List.mem_range]

/-- C3: if the states map assigns 0 to the classified code, the enriched
record is overridden to the fixed "no zombie" result with `is_zombie =
false`, whatever the active criteria were; if it assigns 1 or the code is
absent (defaulting to active), the raw classification stands and
`is_zombie = (code ≠ "0")`. -/
theorem policy_override (states : String → Option Int) (host : Host)
    (c a d : String) (hc : classify_host host.fields = some (c, a, d)) :
    ∃ e, enrich_host states host = some e ∧
      (states c = some 0 →
        e.criterion_type = "0" ∧ e.criterion_alias = "No Zombie Detected" ∧
        e.criterion_description = "Sin criterios de zombie activos" ∧
        e.is_zombie = false) ∧
      ((states c = some 1 ∨ states c = none) →
        e.criterion_type = c ∧ e.criterion_alias = a ∧
        e.criterion_description = d ∧ e.criterion_state = 1 ∧
        (e.is_zombie = true ↔ c ≠ "0")) := by
  unfold enrich_host
  rw [hc]
  refine ⟨_, rfl, ?_, ?_⟩
  · intro h0
    simp [h0]
  · intro h1
    rcases h1 with h1 | h1 <;> simp [h1]

/-- Witness for C3: scenario 4 — one active criterion classifying to `"1C"`,
with `states = {"1C": 0}`, is overridden to the "no zombie" result. -/
theorem policy_override_witness :
    classify_host (fun k =>
        if k = "Sustained_Low_CPU_criterion" then some (.intLike 1) else none) =
      some ("1C", "Crawler",
        "El uso de CPU se mantiene demasiado bajo durante un tiempo prolongado") ∧
    ∃ e, enrich_host (fun c => if c = "1C" then some 0 else none)
        { dynatrace_host_id := "HOST-1", hostname := "host1"
        , fields := fun k =>
            if k = "Sustained_Low_CPU_criterion" then some (.intLike 1) else none }
        = some e ∧
      ((fun c => if c = "1C" then some (0 : Int) else none) "1C" = some 0 →
        e.criterion_type = "0" ∧ e.criterion_alias = "No Zombie Detected" ∧
        e.criterion_description = "Sin criterios de zombie activos" ∧
        e.is_zombie = false) ∧
      (((fun c => if c = "1C" then some (0 : Int) else none) "1C" = some 1 ∨
          (fun c => if c = "1C" then some (0 : Int) else none) "1C" = none) →
        e.criterion_type = "1C" ∧ e.criterion_alias = "Crawler" ∧
        e.criterion_description =
          "El uso de CPU se mantiene demasiado bajo durante un tiempo prolongado" ∧
        e.criterion_state = 1 ∧ (e.is_zombie = true ↔ ("1C" : String) ≠ "0")) :=
  ⟨by decide,
   policy_override (fun c => if c = "1C" then some 0 else none)
     { dynatrace_host_id := "HOST-1", hostname := "host1"
     , fields := fun k =>
         if k = "Sustained_Low_CPU_criterion" then some (.intLike 1) else none }
     "1C" "Crawler"
     "El uso de CPU se mantiene demasiado bajo durante un tiempo prolongado"
     (by decide)⟩

/-- C6 counterexample: with an empty states map (code `"0"` absent), a host
with no active criteria is enriched with `criterion_state = 1` — the
processor's uniform default-to-active — and is *not* treated as
policy-disabled, which (as supplying `{"0": 0}` shows) would give
`criterion_state = 0`. -/
theorem code0_absent_counterexample :
    (enrich_host (fun _ => none)
        { dynatrace_host_id := "HOST-1", hostname := "host1"
        , fields := fun _ => none }).map (·.criterion_state) = some 1 ∧
    (enrich_host (fun c => if c = "0" then some 0 else none)
        { dynatrace_host_id := "HOST-1", hostname := "host1"
        , fields := fun _ => none }).map (·.criterion_state) = some 0 := by
  exact ⟨rfl, rfl⟩

/-- C6 amended: when code `"0"` is absent from the states map, the processor
defaults it to active (`criterion_state = 1`) exactly as for every other
absent code; a host whose raw classification is `"0"` still ends with
`criterion_type = "0"` and `is_zombie = false`, because its code is `"0"`,
not because of a policy-disable. -/
theorem code0_absent_defaults_active (states : String → Option Int) (host : Host)
    (a d : String) (hc : classify_host host.fields = some ("0", a, d))
    (h0 : states "0" = none) :
    ∃ e, enrich_host states host = some e ∧ e.criterion_state = 1 ∧
      e.criterion_type = "0" ∧ e.is_zombie = false := by
  unfold enrich_host
  rw [hc]
  simp [h0]

/-- Witness for the amended C6 at a concrete no-criteria host and an empty
states map. -/
theorem code0_absent_defaults_active_witness :
    classify_host (fun _ => none) =
      some ("0", "No Zombie Detected", "Sin criterios de zombie activos") ∧
    ∃ e, enrich_host (fun _ => none)
        { dynatrace_host_id := "HOST-1", hostname := "host1"
        , fields := fun _ => none } = some e ∧
      e.criterion_state = 1 ∧ e.criterion_type = "0" ∧ e.is_zombie = false :=
  ⟨by decide,
   code0_absent_defaults_active (fun _ => none)
     { dynatrace_host_id := "HOST-1", hostname := "host1", fields := fun _ => none }
     "No Zombie Detected" "Sin criterios de zombie activos" (by decide) rfl⟩

/-- C4: for every identifier in the previous snapshot but not in the current
one, `save_current_zombies` appends a killed entry carrying that identifier,
its previous hostname, last `criterion_type`/`criterion_alias`, and the
run's kill timestamp; afterwards `is_zombie_killed` returns a non-null
record for the identifier. -/
theorem killed_registry (st : TrackerState) (zombies : List Enriched)
    (now : Int) (id : String)
    (hid : id ∈ (st.current.map (·.dynatrace_host_id)).toFinset \
        (zombies.map (·.dynatrace_host_id)).toFinset) :
    (∃ e ∈ (save_current_zombies st zombies now).1.killed,
        e.dynatrace_host_id = id ∧ e.killed_at = now ∧
        ∃ z ∈ st.current, z.dynatrace_host_id = id ∧ e.hostname = z.hostname ∧
          e.criterion_type = z.criterion_type ∧
          e.criterion_alias = z.criterion_alias ∧ e.last_detection = z) ∧
    ∃ e, is_zombie_killed (save_current_zombies st zombies now).1 id = some e ∧
      e.dynatrace_host_id = id := by
  have hidP : id ∈ (st.current.map (·.dynatrace_host_id)).toFinset :=
    (Finset.mem_sdiff.1 hid).1
  obtain ⟨z, hz, hzid⟩ := List.mem_map.1 (List.mem_toFinset.1 hidP)
  have hkilled : (save_current_zombies st zombies now).1.killed
      = track_killed_zombies st.killed
          ((st.current.map (·.dynatrace_host_id)).toFinset \
            (zombies.map (·.dynatrace_host_id)).toFinset) st.current now := by
    show (if (st.current.map (·.dynatrace_host_id)).toFinset \
            (zombies.map (·.dynatrace_host_id)).toFinset = ∅
          then st.killed else _) = _
    rw [if_neg (Finset.ne_empty_of_mem hid)]
  have hzf : z ∈ st.current.filter (fun w => decide (w.dynatrace_host_id ∈
      (st.current.map (·.dynatrace_host_id)).toFinset \
        (zombies.map (·.dynatrace_host_id)).toFinset)) := by
    rw [List.mem_filter]
    refine ⟨hz, ?_⟩
    rw [decide_eq_true_eq, hzid]
    exact hid
  have hmem : ({ dynatrace_host_id := z.dynatrace_host_id
               , hostname := z.hostname
               , criterion_type := z.criterion_type
               , criterion_alias := z.criterion_alias
               , killed_at := now
               , last_detection := z } : KilledEntry)
      ∈ (save_current_zombies st zombies now).1.killed := by
    rw [hkilled]
    exact List.mem_append_right _ (List.mem_map.2 ⟨z, hzf, rfl⟩)
  refine ⟨⟨_, hmem, hzid, rfl, z, hz, hzid, rfl, rfl, rfl, rfl⟩, ?_⟩
  have hex : ((save_current_zombies st zombies now).1.killed.find?
      (fun e => e.dynatrace_host_id == id)).isSome = true :=
    List.find?_isSome.2 ⟨_, hmem, by simp [hzid]⟩
  obtain ⟨e, he⟩ := Option.isSome_iff_exists.mp hex
  refine ⟨e, he, ?_⟩
  have := List.find?_some he
  simpa using this

/-- Witness for C4: one previous zombie `"HOST-1"`, then an empty snapshot. -/
theorem killed_registry_witness :
    ("HOST-1" ∈ (([({ dynatrace_host_id := "HOST-1", hostname := "host1"
                    , criterion_type := "1C", criterion_alias := "Crawler"
                    , criterion_description := "d", criterion_state := 1
                    , is_zombie := true, tracking_info := none } : Enriched)]
        : List Enriched).map (·.dynatrace_host_id)).toFinset \
        (([] : List Enriched).map (·.dynatrace_host_id)).toFinset) ∧
    ∃ e, is_zombie_killed
        (save_current_zombies
          { current := [{ dynatrace_host_id := "HOST-1", hostname := "host1"
                        , criterion_type := "1C", criterion_alias := "Crawler"
                        , criterion_description := "d", criterion_state := 1
                        , is_zombie := true, tracking_info := none }]
          , history := [], killed := [] } [] 7).1 "HOST-1" = some e ∧
      e.dynatrace_host_id = "HOST-1" :=
  ⟨by decide,
   (killed_registry
     { current := [{ dynatrace_host_id := "HOST-1", hostname := "host1"
                   , criterion_type := "1C", criterion_alias := "Crawler"
                   , criterion_description := "d", criterion_state := 1
                   , is_zombie := true, tracking_info := none }]
     , history := [], killed := [] } [] 7 "HOST-1" (by decide)).2⟩

/-- Helper: the enrichment step never attaches `"_tracking_info"`. -/
theorem enrich_host_no_tracking (states : String → Option Int) (host : Host)
    (e : Enriched) (he : enrich_host states host = some e) :
    e.tracking_info = none := by
  unfold enrich_host at he
  cases hcl : classify_host host.fields with
  | none => rw [hcl] at he; simp at he
  | some c =>
    rw [hcl] at he
    simp only [Option.map_some'] at he
    cases he
    split <;> rfl

/-- Helper: every record produced by `mapM` over the enrichment step has an
enrichment preimage. -/
theorem mapM_enrich_preimage (states : String → Option Int) :
    ∀ (hosts : List Host) (es : List Enriched),
      hosts.mapM (enrich_host states) = some es →
      ∀ e ∈ es, ∃ h, enrich_host states h = some e := by
  intro hosts
  induction hosts with
  | nil =>
    intro es hm e he
    rw [List.mapM_nil] at hm
    cases hm
    simp at he
  | cons h t ih =>
    intro es hm e he
    rw [List.mapM_cons] at hm
    cases hh : enrich_host states h with
    | none => rw [hh] at hm; simp at hm
    | some e0 =>
      rw [hh] at hm
      cases ht : t.mapM (enrich_host states) with
      | none => rw [ht] at hm; simp at hm
      | some es0 =>
        rw [ht] at hm
        simp only [Option.bind_some, Option.pure_def] at hm
        cases hm
        rcases List.mem_cons.1 he with rfl | hmem
        · exact ⟨h, hh⟩
        · exact ih es0 ht e hmem

/-- C10: with tracking enabled but no enriched record a zombie,
`process_host_data` returns exactly the enriched records, never touches the
tracker state (previously recorded zombies are not marked killed), and
attaches no `"_tracking_info"` key. -/
theorem no_zombie_no_tracking (states : String → Option Int) (hosts : List Host)
    (st : TrackerState) (now : Int) (enriched : List Enriched)
    (hm : hosts.mapM (enrich_host states) = some enriched)
    (hz : ∀ e ∈ enriched, e.is_zombie = false) :
    process_host_data hosts states st now true = some (enriched, st) ∧
    ∀ e ∈ enriched, e.tracking_info = none := by
  have hfilter : enriched.filter (·.is_zombie) = [] := by
    rw [List.filter_eq_nil_iff]
    intro a ha
    simp [hz a ha]
  constructor
  · unfold process_host_data
    rw [hm]
    simp [hfilter, hz]
    rw [if_pos hz]
    exact ⟨rfl, rfl⟩
  · intro e he
    obtain ⟨h, hh⟩ := mapM_enrich_preimage states hosts enriched hm e he
    exact enrich_host_no_tracking states h e hh

/-- Witness for C10: one non-zombie host against a tracker state holding a
previous zombie; the state comes back untouched. -/
theorem no_zombie_no_tracking_witness :
    ([({ dynatrace_host_id := "HOST-2", hostname := "host2"
       , fields := fun _ => none } : Host)].mapM
        (enrich_host (fun _ => none)) =
      some [{ dynatrace_host_id := "HOST-2", hostname := "host2"
            , criterion_type := "0", criterion_alias := "No Zombie Detected"
            , criterion_description := "Sin criterios de zombie activos"
            , criterion_state := 1, is_zombie := false
            , tracking_info := none }]) ∧
    process_host_data
        [{ dynatrace_host_id := "HOST-2", hostname := "host2"
         , fields := fun _ => none }] (fun _ => none)
        { current := [{ dynatrace_host_id := "HOST-1", hostname := "host1"
                      , criterion_type := "1C", criterion_alias := "Crawler"
                      , criterion_description := "d", criterion_state := 1
                      , is_zombie := true, tracking_info := none }]
        , history := [], killed := [] } 7 true =
      some ([{ dynatrace_host_id := "HOST-2", hostname := "host2"
             , criterion_type := "0", criterion_alias := "No Zombie Detected"
             , criterion_description := "Sin criterios de zombie activos"
             , criterion_state := 1, is_zombie := false
             , tracking_info := none }],
            { current := [{ dynatrace_host_id := "HOST-1", hostname := "host1"
                          , criterion_type := "1C", criterion_alias := "Crawler"
                          , criterion_description := "d", criterion_state := 1
                          , is_zombie := true, tracking_info := none }]
            , history := [], killed := [] }) :=
  ⟨by decide,
   (no_zombie_no_tracking (fun _ => none)
     [{ dynatrace_host_id := "HOST-2", hostname := "host2"
      , fields := fun _ => none }]
     { current := [{ dynatrace_host_id := "HOST-1", hostname := "host1"
                   , criterion_type := "1C", criterion_alias := "Crawler"
                   , criterion_description := "d", criterion_state := 1
                   , is_zombie := true, tracking_info := none }]
     , history := [], killed := [] } 7
     [{ dynatrace_host_id := "HOST-2", hostname := "host2"
      , criterion_type := "0", criterion_alias := "No Zombie Detected"
      , criterion_description := "Sin criterios de zombie activos"
      , criterion_state := 1, is_zombie := false, tracking_info := none }]
     (by decide) (by decide)).1⟩

end ZombieDetector
